import Mathlib

set_option maxHeartbeats 1000000

/-!
Shallow embedding of `src/main.py` (BlogBot): a three-stage
research → write → edit content pipeline over a remote LLM completion
service, with regex-based output sanitisation (`clean_agent_output`)
and heuristic inline validation gates between the stages.

Strings are modelled as Lean `String` (a wrapper around `List Char`);
machine behaviour lives entirely in string processing, so the embedding
is exact on the ASCII range the program manipulates.
-/

/-- ASCII whitespace, as matched by Python's regex class `\s` and by
`str.strip` (the embedding restricts attention to the ASCII range;
the program only ever manipulates ASCII text). -/
def pySpace (c : Char) : Bool :=
  c = ' ' || c = '\t' || c = '\n' || c = '\r' || c = '\x0b' || c = '\x0c'

/-- Python `str.lower` for ASCII letters (`Char.toLower` is exactly the
ASCII lowering). -/
def pyLower (s : String) : String := ⟨s.data.map Char.toLower⟩

/-- Python `str.strip()` on a character list: drop leading and trailing
whitespace. -/
def pyStripList (l : List Char) : List Char :=
  ((l.dropWhile pySpace).reverse.dropWhile pySpace).reverse

/-- Python `str.strip()` on a string. -/
def pyStrip (s : String) : String := ⟨pyStripList s.data⟩

/-- The banner marker `>>>>>>>> ` (eight `>` then a space) of the
framework-internal delimiter lines stripped by `clean_agent_output`. -/
def marker : List Char := ">>>>>>>> ".data

/-- Newline followed by the banner marker: the pattern of the trailing
substitution in `clean_agent_output`. -/
def nlMarker : List Char := "\n>>>>>>>> ".data

/-- Embedding of `re.sub(r'^\s*>>>>>>>> .*?\n', '', output, flags=re.DOTALL)`
(src/main.py line 87).  With the anchor `^` and no MULTILINE the pattern
can match only once, at the very start of the string: the greedy `\s*`
takes the maximal whitespace prefix (no shorter choice can be followed by
`>`), then the marker, then the lazy `.*?\n` ends at the first newline
after the marker.  If the marker (after leading whitespace) or that
newline is absent, there is no match and the string is unchanged. -/
def subLeading (l : List Char) : List Char :=
  if marker <+: (l.dropWhile pySpace) ∧ '\n' ∈ (l.dropWhile pySpace).drop 9 then
    (((l.dropWhile pySpace).drop 9).dropWhile (fun c => c != '\n')).tail
  else l

/-- Embedding of `re.sub(r'\n>>>>>>>> .*?\s*$', '', output, flags=re.DOTALL)`
(src/main.py line 88).  The leftmost match starts at the first occurrence
of `"\n>>>>>>>> "`; with DOTALL the lazy `.*?` can always be extended to
the end of the string, and backtracking forces every successful match to
end there, so the substitution keeps exactly the text before that first
occurrence (and there is no further match to replace). -/
def dropFromFirst (pat : List Char) : List Char → List Char
  | [] => []
  | c :: l => if pat <+: (c :: l) then [] else c :: dropFromFirst pat l

/-- Embedding of `clean_agent_output` (src/main.py lines 81-90) on strings
(the non-string passthrough branch of the Python function is not
reachable in the pipeline, whose inputs are always strings). -/
def clean_agent_output (s : String) : String :=
  ⟨pyStripList (dropFromFirst nlMarker (subLeading s.data))⟩

/-- The three agent roles of the pipeline. -/
inductive Role
  | Researcher
  | Writer
  | Editor
deriving DecidableEq

/-- A model entry of the autogen `config_list` (src/main.py lines 17-23);
the API key is an environment secret and not part of the model. -/
structure ModelConfig where
  model : String
  api_type : String
deriving DecidableEq

/-- The autogen `llm_config` dict (src/main.py lines 25-30); the duplicate
`"config_list"` key of the Python dict literal collapses to one field.
The sampling temperature is exact decimal data (never computed with), so
it is carried as a rational. -/
structure LLMConfig where
  config_list : List ModelConfig
  seed : Nat
  temperature : ℚ
deriving DecidableEq

def config_list : List ModelConfig := [⟨"gemini-1.5-flash", "google"⟩]

def llm_config : LLMConfig := ⟨config_list, 42, 7 / 10⟩

/-- An autogen `AssistantAgent` as constructed in src/main.py. -/
structure AssistantAgent where
  name : String
  llm_config : LLMConfig
  system_message : String
deriving DecidableEq

def researcher_agent : AssistantAgent :=
  ⟨"Researcher", llm_config,
   "You are a Blog Researcher whose SOLE purpose is to gather and structure information for a blog post on a given topic."⟩

def writer_agent : AssistantAgent :=
  ⟨"Writer", llm_config,
   "You are a Blog Writer."⟩

def editor_agent : AssistantAgent :=
  ⟨"Editor", llm_config,
   "You are a blog post editor expert."⟩

/-- The agent object passed to `initiate_chat` for each stage. -/
def agent_of : Role → AssistantAgent
  | .Researcher => researcher_agent
  | .Writer => writer_agent
  | .Editor => editor_agent

/-- The `UserProxyAgent` (src/main.py lines 70-78); its
`is_termination_msg` lambda is a function value and is kept out of the
record (no claim depends on it). -/
structure UserProxyAgent where
  name : String
  human_input_mode : String
  max_consecutive_auto_reply : Nat
  code_execution_config : Bool
  llm_config : LLMConfig
deriving DecidableEq

def user_proxy : UserProxyAgent :=
  ⟨"UserProxy", "NEVER", 2, false, llm_config⟩

/-- One `user_proxy.initiate_chat(...)` invocation with the keyword
arguments the pipeline passes at each stage. -/
structure ChatCall where
  agent : Role
  message : String
  clear_history : Bool
  max_consecutive_auto_reply : Nat
deriving DecidableEq

/-- Every initiate-chat call in the pipeline passes
`clear_history=True, max_consecutive_auto_reply=1`
(src/main.py lines 107-112, 134-139, 159-164). -/
def mkCall (r : Role) (msg : String) : ChatCall := ⟨r, msg, true, 1⟩

/-- Streamlit display events emitted by the pipeline, in order. -/
inductive UIEvent
  | warning (msg : String)
  | info (msg : String)
  | error (msg : String)
  | subheader (msg : String)
  | write (content : String)
  | success (msg : String)
deriving DecidableEq

/-- Observable outcome of one button press: the initiate-chat calls made
and the display events shown, each in order. -/
structure RunState where
  calls : List ChatCall
  display : List UIEvent
deriving DecidableEq

/-- Extraction of a stage's text from a chat result (src/main.py lines
114, 141, 166): `r.summary if r and r.summary else placeholder`.  A chat
result with a missing summary is `none`; an empty summary string is falsy
in Python, so it is also replaced by the placeholder. -/
def extract_summary (o : Option String) (placeholder : String) : String :=
  match o with
  | none => placeholder
  | some s => if s = "" then placeholder else s

/-- The research task message (src/main.py line 105). -/
def research_task (topic : String) : String :=
  "Research content for a blog post on the topic: " ++ topic ++
  ". Provide key points, facts, and potential sections."

/-- The writing task message (src/main.py line 132). -/
def writing_task (research_content : String) : String :=
  "Write a comprehensive blog post based on the following research findings:\n\n" ++
  research_content ++ "\n\nEnsure it is engaging and well-structured."

/-- The editing task message (src/main.py line 157). -/
def editing_task (draft : String) : String :=
  "Review and improve the following blog post for clarity, flow, and accuracy. Make it more meaningful and engaging. Provide the final, polished blog post.\n\n" ++
  draft

/-- The research validation gate (src/main.py line 127), rejecting exactly
when the inline boolean condition there holds.  Python's `x in y` on
strings is substring containment, `not s` on a string is emptiness. -/
def research_gate_rejects (s : String) : Prop :=
  s = "" ∨
  "No research content generated.".data <:+: s.data ∨
  "okay".data <+: (pyLower (pyStrip s)).data ∨
  "awaiting".data <+: (pyLower (pyStrip s)).data ∨
  "fact-checking process".data <:+: (pyLower s).data ∨
  "visual integration".data <:+: (pyLower s).data ∨
  "i will now proceed".data <+: (pyLower (pyStrip s)).data

instance (s : String) : Decidable (research_gate_rejects s) :=
  inferInstanceAs (Decidable (s = "" ∨
    "No research content generated.".data <:+: s.data ∨
    "okay".data <+: (pyLower (pyStrip s)).data ∨
    "awaiting".data <+: (pyLower (pyStrip s)).data ∨
    "fact-checking process".data <:+: (pyLower s).data ∨
    "visual integration".data <:+: (pyLower s).data ∨
    "i will now proceed".data <+: (pyLower (pyStrip s)).data))

/-- The writing validation gate (src/main.py line 152). -/
def writing_gate_rejects (d : String) : Prop :=
  d = "" ∨
  "No blog post draft generated.".data <:+: d.data ∨
  "i cannot create".data <+: (pyLower (pyStrip d)).data ∨
  "i will now proceed".data <+: (pyLower (pyStrip d)).data

instance (d : String) : Decidable (writing_gate_rejects d) :=
  inferInstanceAs (Decidable (d = "" ∨
    "No blog post draft generated.".data <:+: d.data ∨
    "i cannot create".data <+: (pyLower (pyStrip d)).data ∨
    "i will now proceed".data <+: (pyLower (pyStrip d)).data))

/-- The editing success check (src/main.py line 171), positively phrased
as in the code. -/
def editing_success (f : String) : Prop :=
  f ≠ "" ∧
  ¬ ("No final blog post generated.".data <:+: f.data) ∧
  ¬ ("i will now proceed".data <+: (pyLower (pyStrip f)).data)

instance (f : String) : Decidable (editing_success f) :=
  inferInstanceAs (Decidable (f ≠ "" ∧
    ¬ ("No final blog post generated.".data <:+: f.data) ∧
    ¬ ("i will now proceed".data <+: (pyLower (pyStrip f)).data)))

/-- A completion client: what the remote generative service (behind
autogen's `initiate_chat`) answers, per agent role and task message;
`none` models a chat result without a usable summary. -/
def ClientFun : Type := Role → String → Option String

/-- The research stage's extracted and sanitised content
(src/main.py lines 107-115). -/
def research_content_of (client : ClientFun) (topic : String) : String :=
  clean_agent_output
    (extract_summary (client .Researcher (research_task topic))
      "No research content generated.")

/-- The writing stage's extracted and sanitised draft
(src/main.py lines 134-142). -/
def draft_of (client : ClientFun) (topic : String) : String :=
  clean_agent_output
    (extract_summary (client .Writer (writing_task (research_content_of client topic)))
      "No blog post draft generated.")

/-- The editing stage's extracted and sanitised final post
(src/main.py lines 159-167). -/
def final_of (client : ClientFun) (topic : String) : String :=
  clean_agent_output
    (extract_summary (client .Editor (editing_task (draft_of client topic)))
      "No final blog post generated.")

/-- Embedding of the module-level pipeline triggered by the button
(src/main.py lines 96-177): the nested if/else chain of the three stages,
recording the initiate-chat calls made and the display events shown.
The `st.spinner` context manager draws no persistent output and is not
modelled; the research stage's `st.info` is commented out in the source. -/
def run_pipeline (client : ClientFun) (blog_name : String) : RunState :=
  if blog_name = "" then
    ⟨[], [.warning "Please enter a topic name."]⟩
  else if research_gate_rejects (research_content_of client blog_name) then
    ⟨[mkCall .Researcher (research_task blog_name)],
     [.error "Research failed or returned invalid content. Cannot proceed with writing."]⟩
  else if writing_gate_rejects (draft_of client blog_name) then
    ⟨[mkCall .Researcher (research_task blog_name),
      mkCall .Writer (writing_task (research_content_of client blog_name))],
     [.info "Writer is drafting the blog post...",
      .error "Writing failed or returned no content. Cannot proceed with editing."]⟩
  else
    ⟨[mkCall .Researcher (research_task blog_name),
      mkCall .Writer (writing_task (research_content_of client blog_name)),
      mkCall .Editor (editing_task (draft_of client blog_name))],
     [.info "Writer is drafting the blog post...",
      .info "Editor is reviewing and improving the blog post...",
      .subheader "Final Blog Post:",
      .write (final_of client blog_name)] ++
     (if editing_success (final_of client blog_name) then
        [.success "Blog post generation complete!"]
      else
        [.error "Editing failed or returned no content."])⟩

/-- A stub completion client that never returns a summary. -/
def stubNone : ClientFun := fun _ _ => none

/-- A stub completion client whose three stages all return content that
passes the corresponding validation gate. -/
def stubGood : ClientFun := fun r _ =>
  match r with
  | Role.Researcher => some "Detailed notes on the topic."
  | Role.Writer => some "A complete draft of the blog post."
  | Role.Editor => some "The polished final blog post."

/-- A stub completion client whose research and writing stages succeed
but whose editing stage returns no content. -/
def stubEditorNone : ClientFun := fun r _ =>
  match r with
  | Role.Researcher => some "Solid research notes on the topic."
  | Role.Writer => some "A full draft of the blog post."
  | Role.Editor => none

/-! Helper lemmas about `dropWhile`, `pyStripList` and `dropFromFirst`. -/

lemma dropWhile_idem (p : Char → Bool) (l : List Char) :
    (l.dropWhile p).dropWhile p = l.dropWhile p := by
  induction l with
  | nil => rfl
  | cons c l ih =>
      cases hc : p c with
      | false => simp [List.dropWhile_cons, hc]
      | true => simpa [List.dropWhile_cons, hc] using ih

lemma exists_append_dropWhile (p : Char → Bool) (l : List Char) :
    ∃ w, w ++ l.dropWhile p = l := by
  induction l with
  | nil => exact ⟨[], rfl⟩
  | cons c l ih =>
      cases hc : p c with
      | false => exact ⟨[], by simp [List.dropWhile_cons, hc]⟩
      | true =>
          obtain ⟨w, hw⟩ := ih
          exact ⟨c :: w, by simp [List.dropWhile_cons, hc, hw]⟩

lemma length_dropWhile_le (p : Char → Bool) (l : List Char) :
    (l.dropWhile p).length ≤ l.length := by
  obtain ⟨w, hw⟩ := exists_append_dropWhile p l
  have := congrArg List.length hw
  simp only [List.length_append] at this
  omega

lemma prefix_dropWhile_eq_self {p : Char → Bool} {l m : List Char}
    (hpre : m <+: l) (hl : l.dropWhile p = l) : m.dropWhile p = m := by
  cases m with
  | nil => rfl
  | cons c t =>
      obtain ⟨r, hr⟩ := hpre
      cases hc : p c with
      | false => simp [List.dropWhile_cons, hc]
      | true =>
          exfalso
          rw [← hr] at hl
          have h1 := length_dropWhile_le p (t ++ r)
          have h2 := congrArg List.length hl
          simp only [List.cons_append, List.dropWhile_cons, hc, if_true,
            List.length_cons] at h2
          omega

lemma pyStripList_prefix_dropWhile (l : List Char) :
    pyStripList l <+: l.dropWhile pySpace := by
  obtain ⟨u, hu⟩ := exists_append_dropWhile pySpace (l.dropWhile pySpace).reverse
  refine ⟨u.reverse, ?_⟩
  have h := congrArg List.reverse hu
  simpa [pyStripList, List.reverse_append] using h

lemma dropWhile_pyStripList (l : List Char) :
    (pyStripList l).dropWhile pySpace = pyStripList l :=
  prefix_dropWhile_eq_self (pyStripList_prefix_dropWhile l) (dropWhile_idem _ l)

lemma pyStripList_idem (l : List Char) :
    pyStripList (pyStripList l) = pyStripList l := by
  have h2 : (pyStripList l).reverse.dropWhile pySpace = (pyStripList l).reverse := by
    have hrev : (pyStripList l).reverse = (l.dropWhile pySpace).reverse.dropWhile pySpace := by
      simp [pyStripList]
    rw [hrev, dropWhile_idem]
  show (((pyStripList l).dropWhile pySpace).reverse.dropWhile pySpace).reverse = pyStripList l
  rw [dropWhile_pyStripList l, h2, List.reverse_reverse]

lemma infix_of_pyStripList (l : List Char) : pyStripList l <:+: l := by
  obtain ⟨w, hw⟩ := exists_append_dropWhile pySpace l
  obtain ⟨u, hu⟩ := pyStripList_prefix_dropWhile l
  exact ⟨w, u, by rw [List.append_assoc, hu, hw]⟩

lemma prefix_of_dropFromFirst (pat : List Char) (l : List Char) :
    dropFromFirst pat l <+: l := by
  induction l with
  | nil => simp [dropFromFirst]
  | cons c l ih =>
      by_cases h : pat <+: (c :: l)
      · simp [dropFromFirst, h]
      · simp only [dropFromFirst, if_neg h]
        obtain ⟨t, ht⟩ := ih
        exact ⟨t, by simp [ht]⟩

lemma infix_cons_elim {pat : List Char} {c : Char} {l : List Char}
    (h : pat <:+: c :: l) : pat <+: c :: l ∨ pat <:+: l := by
  obtain ⟨s, t, hst⟩ := h
  cases s with
  | nil => exact Or.inl ⟨t, by simpa using hst⟩
  | cons a s =>
      right
      simp only [List.cons_append, List.cons.injEq] at hst
      exact ⟨s, t, hst.2⟩

lemma not_infix_dropFromFirst {pat : List Char} (hne : pat ≠ []) (l : List Char) :
    ¬ pat <:+: dropFromFirst pat l := by
  induction l with
  | nil =>
      intro h
      rw [dropFromFirst] at h
      exact hne (List.eq_nil_of_infix_nil h)
  | cons c l ih =>
      by_cases hp : pat <+: (c :: l)
      · simp only [dropFromFirst, if_pos hp]
        intro h
        exact hne (List.eq_nil_of_infix_nil h)
      · simp only [dropFromFirst, if_neg hp]
        intro h
        rcases infix_cons_elim h with h1 | h2
        · refine hp (h1.trans ?_)
          obtain ⟨t, ht⟩ := prefix_of_dropFromFirst pat l
          exact ⟨t, by simp [ht]⟩
        · exact ih h2

lemma dropFromFirst_eq_self {pat l : List Char} (h : ¬ pat <:+: l) :
    dropFromFirst pat l = l := by
  induction l with
  | nil => rfl
  | cons c l ih =>
      have hp : ¬ pat <+: (c :: l) := by
        intro hpre
        obtain ⟨t, ht⟩ := hpre
        exact h ⟨[], t, by simpa using ht⟩
      simp only [dropFromFirst, if_neg hp]
      have hl : ¬ pat <:+: l := by
        intro hin
        obtain ⟨s, t, hst⟩ := hin
        exact h ⟨c :: s, t, by simp [hst]⟩
      rw [ih hl]

lemma marker_infix_of_prefix_dropWhile {l : List Char}
    (h : marker <+: l.dropWhile pySpace) : marker <:+: l := by
  obtain ⟨w, hw⟩ := exists_append_dropWhile pySpace l
  obtain ⟨t, ht⟩ := h
  exact ⟨w, t, by rw [List.append_assoc, ht, hw]⟩

lemma nlMarker_eq : nlMarker = '\n' :: marker := by decide

lemma marker_of_nlMarker_occurrence {l : List Char}
    (h : nlMarker <:+: l) : marker <:+: l := by
  obtain ⟨s, t, hst⟩ := h
  rw [nlMarker_eq] at hst
  refine ⟨s ++ ['\n'], t, ?_⟩
  simpa [List.append_assoc] using hst

lemma subLeading_eq_self {l : List Char}
    (hd : l.dropWhile pySpace = l) (hm : ¬ marker <+: l) :
    subLeading l = l := by
  rw [subLeading, if_neg]
  intro hand
  rw [hd] at hand
  exact hm hand.1

/-- Core of the amended idempotence: `clean_agent_output` output is a
fixed point unless it still begins with the banner marker. -/
theorem clean_agent_output_fixed {s : String}
    (h : ¬ marker <+: (clean_agent_output s).data) :
    clean_agent_output (clean_agent_output s) = clean_agent_output s := by
  set t : List Char := pyStripList (dropFromFirst nlMarker (subLeading s.data)) with ht
  have hdata : (clean_agent_output s).data = t := rfl
  have hdw : t.dropWhile pySpace = t := by
    rw [ht]; exact dropWhile_pyStripList _
  have hsub : subLeading t = t := subLeading_eq_self hdw (by rwa [hdata] at h)
  have hnin : ¬ nlMarker <:+: t := by
    intro hin
    have h1 : t <:+: dropFromFirst nlMarker (subLeading s.data) := by
      rw [ht]; exact infix_of_pyStripList _
    have h2 : nlMarker <:+: dropFromFirst nlMarker (subLeading s.data) :=
      hin.trans h1
    exact not_infix_dropFromFirst (by decide) _ h2
  show (⟨pyStripList (dropFromFirst nlMarker (subLeading t))⟩ : String) = ⟨t⟩
  rw [hsub, dropFromFirst_eq_self hnin, ht, pyStripList_idem]

lemma dropWhile_ne_append {b : List Char} (hb : '\n' ∉ b) (z : List Char) :
    (b ++ '\n' :: z).dropWhile (fun c => c != '\n') = '\n' :: z := by
  induction b with
  | nil => simp [List.dropWhile_cons]
  | cons a b ih =>
      have ha : a ≠ '\n' := by
        intro hh
        exact hb (by simp [hh])
      have hb' : '\n' ∉ b := fun hh => hb (List.mem_cons_of_mem _ hh)
      simp [List.dropWhile_cons, ha, ih hb']

lemma dropFromFirst_at_append {rest : List Char} (hn : '\n' ∉ rest) :
    ∀ (t : List Char) (e : List Char), ¬ ('\n' :: rest) <:+: t →
      dropFromFirst ('\n' :: rest) (t ++ ('\n' :: rest) ++ e) = t := by
  intro t
  induction t with
  | nil =>
      intro e _
      simp only [List.nil_append]
      show dropFromFirst ('\n' :: rest) ('\n' :: (rest ++ e)) = []
      rw [dropFromFirst, if_pos ⟨e, by simp⟩]
  | cons c t ih =>
      intro e hni
      have hni' : ¬ ('\n' :: rest) <:+: t := by
        intro hin
        obtain ⟨s, u, hsu⟩ := hin
        exact hni ⟨c :: s, u, by simp [hsu]⟩
      have hcons : ¬ ('\n' :: rest) <+: (c :: (t ++ ('\n' :: rest) ++ e)) := by
        intro hpre
        obtain ⟨u, hu⟩ := hpre
        have hu' : ('\n' :: rest) ++ u = (c :: t) ++ (('\n' :: rest) ++ e) := by
          simpa [List.append_assoc] using hu
        rcases List.append_eq_append_iff.mp hu' with ⟨a', ha1, _⟩ | ⟨c', hc1, hc2⟩
        · -- c :: t = ('\n' :: rest) ++ a' : the pattern occurs inside c :: t
          exact hni ⟨[], a', by simp [ha1]⟩
        · -- '\n' :: rest = (c :: t) ++ c'
          cases c' with
          | nil =>
              exact hni ⟨[], [], by simpa using hc1⟩
          | cons a c'' =>
              -- then a is the head of the leftover of the pattern, and the
              -- tail of hu' forces a = '\n', yet a ∈ rest which has no '\n'
              have ha_mem : a ∈ rest := by
                have : a ∈ ('\n' :: rest) := by rw [hc1]; simp
                rcases List.mem_cons.mp this with h1 | h1
                · -- a = '\n' : then '\n' ∈ rest via hc1's tail? handle below
                  subst h1
                  -- from hc1 : '\n' :: rest = c :: (t ++ '\n' :: c''),
                  -- rest = t ++ '\n' :: c'' contains '\n'
                  have : rest = t ++ '\n' :: c'' := by
                    have h := hc1
                    simp only [List.cons_append, List.cons.injEq] at h
                    exact h.2
                  exact absurd (by rw [this]; simp : ('\n' : Char) ∈ rest) hn
                · exact h1
              have ha_nl : a = '\n' := by
                -- hc2 : ('\n' :: rest) ++ e = (a :: c'') ++ u
                have := hc2
                simp only [List.cons_append, List.cons.injEq] at this
                exact this.1.symm
              rw [ha_nl] at ha_mem
              exact hn ha_mem
      show dropFromFirst ('\n' :: rest) (c :: (t ++ ('\n' :: rest) ++ e)) = c :: t
      rw [dropFromFirst, if_neg hcons, ih e hni']

lemma marker_ne_nl : ('\n' : Char) ∉ marker := by decide

lemma dropWhile_marker_append (X : List Char) :
    (marker ++ X).dropWhile pySpace = marker ++ X := by
  have h : marker ++ X = '>' :: (">>>>>>> ".data ++ X) := rfl
  rw [h, List.dropWhile_cons]
  have hp : pySpace '>' = false := by decide
  rw [hp]
  simp

lemma subLeading_banner (b z : List Char) (hb : '\n' ∉ b) :
    subLeading (marker ++ (b ++ '\n' :: z)) = z := by
  have hdw := dropWhile_marker_append (b ++ '\n' :: z)
  rw [subLeading, hdw]
  have hdrop : (marker ++ (b ++ '\n' :: z)).drop 9 = b ++ '\n' :: z := by
    have h9 : (9 : Nat) = marker.length := by decide
    rw [h9, List.drop_left]
  rw [hdrop, if_pos ⟨⟨b ++ '\n' :: z, rfl⟩, by simp⟩]
  rw [dropWhile_ne_append hb, List.tail_cons]

lemma clean_no_marker {s : String} (h : ¬ marker <:+: s.data) :
    clean_agent_output s = pyStrip s := by
  have h1 : subLeading s.data = s.data := by
    rw [subLeading, if_neg]
    intro hand
    exact h (marker_infix_of_prefix_dropWhile hand.1)
  have h2 : dropFromFirst nlMarker s.data = s.data :=
    dropFromFirst_eq_self (fun hin => h (marker_of_nlMarker_occurrence hin))
  show (⟨pyStripList (dropFromFirst nlMarker (subLeading s.data))⟩ : String) = pyStrip s
  rw [h1, h2]
  rfl

lemma clean_banner (b t e : List Char) (hb : '\n' ∉ b) (ht : ¬ nlMarker <:+: t) :
    clean_agent_output ⟨marker ++ (b ++ '\n' :: (t ++ nlMarker ++ e))⟩ = ⟨pyStripList t⟩ := by
  show (⟨pyStripList (dropFromFirst nlMarker
    (subLeading (marker ++ (b ++ '\n' :: (t ++ nlMarker ++ e)))))⟩ : String) = ⟨pyStripList t⟩
  rw [subLeading_banner b (t ++ nlMarker ++ e) hb]
  have h2 : dropFromFirst nlMarker (t ++ nlMarker ++ e) = t := by
    rw [nlMarker_eq]
    exact dropFromFirst_at_append marker_ne_nl t e (by rwa [nlMarker_eq] at ht)
  rw [h2]

/-! Claim theorems. -/

/-- C3 (counterexample): the sanitizer is not idempotent.  On a string
beginning with two consecutive banner lines, each application of
`clean_agent_output` removes only the first leading banner line (the
anchored leading substitution matches once, and the trailing substitution
needs a newline before the marker), so a second application changes the
result again. -/
theorem clean_agent_output_not_idem :
    clean_agent_output (clean_agent_output ">>>>>>>> a\n>>>>>>>> b\nC") ≠
      clean_agent_output ">>>>>>>> a\n>>>>>>>> b\nC" := by decide

/-- C3 (amended): the sanitizer is idempotent on every string whose
sanitized form does not itself begin with the banner marker
`>>>>>>>> ` — equivalently, sanitize(s) is a fixed point of sanitize
unless it still starts with a banner line, which happens exactly when s
begins with several consecutive banner lines. -/
theorem clean_agent_output_idem_unless_marker (s : String)
    (h : ¬ marker <+: (clean_agent_output s).data) :
    clean_agent_output (clean_agent_output s) = clean_agent_output s :=
  clean_agent_output_fixed h

theorem clean_agent_output_idem_unless_marker_witness :
    (¬ marker <+: (clean_agent_output "hello world").data) ∧
      clean_agent_output (clean_agent_output "hello world") =
        clean_agent_output "hello world" :=
  ⟨by decide, clean_agent_output_idem_unless_marker "hello world" (by decide)⟩

/-- C4: on the given banner-wrapped input the sanitizer returns exactly
"ACTUAL CONTENT"; an input containing no banner marker at all is returned
unchanged except for whitespace trimming; and in general, one leading
banner line (banner text without newline) and everything from the first
newline-plus-marker on (the trailing banner block) are removed, leaving
the trimmed body. -/
theorem clean_agent_output_marker_removal :
    clean_agent_output ">>>>>>>> some banner\nACTUAL CONTENT\n>>>>>>>> end banner" =
      "ACTUAL CONTENT" ∧
    (∀ s : String, ¬ marker <:+: s.data → clean_agent_output s = pyStrip s) ∧
    (∀ b t e : List Char, '\n' ∉ b → ¬ nlMarker <:+: t →
      clean_agent_output ⟨marker ++ (b ++ '\n' :: (t ++ nlMarker ++ e))⟩ =
        ⟨pyStripList t⟩) :=
  ⟨by decide,
   fun _ h => clean_no_marker h,
   fun b t e hb ht => clean_banner b t e hb ht⟩

theorem clean_agent_output_marker_removal_witness :
    clean_agent_output "plain text, no banners" = pyStrip "plain text, no banners" ∧
    clean_agent_output ⟨marker ++ ("x".data ++ '\n' :: ("BODY".data ++ nlMarker ++ "tail".data))⟩ =
      ⟨pyStripList "BODY".data⟩ :=
  ⟨clean_agent_output_marker_removal.2.1 "plain text, no banners" (by decide),
   clean_agent_output_marker_removal.2.2 "x".data "BODY".data "tail".data
     (by decide) (by decide)⟩

/-- C1: if the research gate rejects the research stage's validated
output, the pipeline halts with an error naming the research stage and
only the researcher's completion call was made (neither the writer's nor
the editor's initiate-chat is invoked); likewise, if the writing gate
rejects the draft, the editor's completion call is never invoked. -/
theorem pipeline_short_circuit (client : ClientFun) (topic : String)
    (h : topic ≠ "") :
    (research_gate_rejects (research_content_of client topic) →
      (run_pipeline client topic).calls = [mkCall .Researcher (research_task topic)] ∧
      (run_pipeline client topic).display =
        [.error "Research failed or returned invalid content. Cannot proceed with writing."]) ∧
    (¬ research_gate_rejects (research_content_of client topic) →
      writing_gate_rejects (draft_of client topic) →
      (run_pipeline client topic).calls =
        [mkCall .Researcher (research_task topic),
         mkCall .Writer (writing_task (research_content_of client topic))] ∧
      ∀ c ∈ (run_pipeline client topic).calls, c.agent ≠ Role.Editor) := by
  constructor
  · intro hr
    unfold run_pipeline
    rw [if_neg h, if_pos hr]
    exact ⟨rfl, rfl⟩
  · intro hr hw
    unfold run_pipeline
    rw [if_neg h, if_neg hr, if_pos hw]
    refine ⟨rfl, ?_⟩
    intro c hc
    rcases List.mem_cons.mp hc with h1 | h1
    · subst h1
      simp [mkCall]
    · rcases List.mem_cons.mp h1 with h2 | h2
      · subst h2
        simp [mkCall]
      · simp at h2

theorem pipeline_short_circuit_witness :
    (run_pipeline stubNone "AI").calls = [mkCall .Researcher (research_task "AI")] ∧
    (run_pipeline stubNone "AI").display =
      [.error "Research failed or returned invalid content. Cannot proceed with writing."] :=
  (pipeline_short_circuit stubNone "AI" (by decide)).1 (by decide)

/-- C2 (counterexample): with a client whose editing stage returns no
content, the rejected placeholder final text is nevertheless displayed as
final content — a `st.write` under the "Final Blog Post:" subheader —
before the error message, because src/main.py lines 168-169 display the
editing result unconditionally, ahead of the line-171 validation. -/
theorem editing_rejection_displayed :
    ¬ editing_success (final_of stubEditorNone "Quantum computing") ∧
    (run_pipeline stubEditorNone "Quantum computing").display =
      [.info "Writer is drafting the blog post...",
       .info "Editor is reviewing and improving the blog post...",
       .subheader "Final Blog Post:",
       .write "No final blog post generated.",
       .error "Editing failed or returned no content."] := by decide

/-- C2 (amended): for the research and writing stages, rejected output is
never displayed as final content — the whole display is a single
human-readable failure message naming the failed stage (preceded, for the
writing stage, by its progress notice); the editing stage's output,
however, is displayed under "Final Blog Post:" before validation, so a
rejected final output is shown and then followed by the editing failure
message. -/
theorem rejection_display_policy (client : ClientFun) (topic : String)
    (h : topic ≠ "") :
    (research_gate_rejects (research_content_of client topic) →
      (run_pipeline client topic).display =
        [.error "Research failed or returned invalid content. Cannot proceed with writing."]) ∧
    (¬ research_gate_rejects (research_content_of client topic) →
      writing_gate_rejects (draft_of client topic) →
      (run_pipeline client topic).display =
        [.info "Writer is drafting the blog post...",
         .error "Writing failed or returned no content. Cannot proceed with editing."]) ∧
    (¬ research_gate_rejects (research_content_of client topic) →
      ¬ writing_gate_rejects (draft_of client topic) →
      ¬ editing_success (final_of client topic) →
      (run_pipeline client topic).display =
        [.info "Writer is drafting the blog post...",
         .info "Editor is reviewing and improving the blog post...",
         .subheader "Final Blog Post:",
         .write (final_of client topic),
         .error "Editing failed or returned no content."]) := by
  refine ⟨?_, ?_, ?_⟩
  · intro hr
    unfold run_pipeline
    rw [if_neg h, if_pos hr]
  · intro hr hw
    unfold run_pipeline
    rw [if_neg h, if_neg hr, if_pos hw]
  · intro hr hw he
    unfold run_pipeline
    rw [if_neg h, if_neg hr, if_neg hw, if_neg he]
    rfl

theorem rejection_display_policy_witness :
    (run_pipeline stubNone "AI").display =
      [.error "Research failed or returned invalid content. Cannot proceed with writing."] :=
  (rejection_display_policy stubNone "AI" (by decide)).1 (by decide)

/-- C5 (counterexample): the writing-stage validator does not reject
conversational-filler prefixes — only the research gate checks "okay" and
"awaiting" (src/main.py line 127); the writing gate (line 152) checks
only "i cannot create" and "i will now proceed", so both example texts
are accepted at the writing stage. -/
theorem writer_filler_accepted :
    ¬ writing_gate_rejects "Okay, I will draft this now." ∧
    ¬ writing_gate_rejects "OKAY sure" := by decide

/-- C5 (amended): only the research stage rejects texts whose
case-insensitive trimmed form begins with "okay" or "awaiting"; the
writing stage's validator instead checks the prefixes "i cannot create"
and "i will now proceed", and accepts both example texts. -/
theorem filler_prefixes_research_only :
    (∀ s : String,
      ("okay".data <+: (pyLower (pyStrip s)).data ∨
       "awaiting".data <+: (pyLower (pyStrip s)).data) →
      research_gate_rejects s) ∧
    ¬ writing_gate_rejects "Okay, I will draft this now." ∧
    ¬ writing_gate_rejects "OKAY sure" := by
  refine ⟨?_, by decide, by decide⟩
  intro s hs
  unfold research_gate_rejects
  rcases hs with h1 | h1
  · exact Or.inr (Or.inr (Or.inl h1))
  · exact Or.inr (Or.inr (Or.inr (Or.inl h1)))

theorem filler_prefixes_research_only_witness :
    research_gate_rejects "Okay, I will begin." :=
  filler_prefixes_research_only.1 "Okay, I will begin." (Or.inl (by decide))

/-- C6 (counterexample): a text that merely contains the placeholder
sentinel "No research content generated." as a proper substring, and
matches none of the other heuristics, is nevertheless rejected: the
gate's Python test `placeholder in text` is substring containment, not
equality. -/
theorem placeholder_substring_rejected :
    research_gate_rejects "Summary: No research content generated. Will retry later." ∧
    "Summary: No research content generated. Will retry later." ≠ "" ∧
    "Summary: No research content generated. Will retry later." ≠
      "No research content generated." ∧
    ¬ ("okay".data <+:
      (pyLower (pyStrip "Summary: No research content generated. Will retry later.")).data) ∧
    ¬ ("awaiting".data <+:
      (pyLower (pyStrip "Summary: No research content generated. Will retry later.")).data) ∧
    ¬ ("fact-checking process".data <:+:
      (pyLower "Summary: No research content generated. Will retry later.").data) ∧
    ¬ ("visual integration".data <:+:
      (pyLower "Summary: No research content generated. Will retry later.").data) ∧
    ¬ ("i will now proceed".data <+:
      (pyLower (pyStrip "Summary: No research content generated. Will retry later.")).data) := by
  decide

/-- C6 (amended): the research and writing gates reject exactly when the
text is empty, CONTAINS the stage's placeholder sentinel as a substring
(not only when it equals it), or matches one of the listed prefix/phrase
heuristics; every other text is accepted, and an accepted research text
makes the pipeline proceed to invoke the writer's completion call. -/
theorem validation_gate_characterization :
    (∀ s : String, research_gate_rejects s ↔
      (s = "" ∨
       "No research content generated.".data <:+: s.data ∨
       "okay".data <+: (pyLower (pyStrip s)).data ∨
       "awaiting".data <+: (pyLower (pyStrip s)).data ∨
       "fact-checking process".data <:+: (pyLower s).data ∨
       "visual integration".data <:+: (pyLower s).data ∨
       "i will now proceed".data <+: (pyLower (pyStrip s)).data)) ∧
    (∀ d : String, writing_gate_rejects d ↔
      (d = "" ∨
       "No blog post draft generated.".data <:+: d.data ∨
       "i cannot create".data <+: (pyLower (pyStrip d)).data ∨
       "i will now proceed".data <+: (pyLower (pyStrip d)).data)) ∧
    (∀ (client : ClientFun) (topic : String), topic ≠ "" →
      ¬ research_gate_rejects (research_content_of client topic) →
      mkCall Role.Writer (writing_task (research_content_of client topic)) ∈
        (run_pipeline client topic).calls) := by
  refine ⟨fun s => Iff.rfl, fun d => Iff.rfl, ?_⟩
  intro client topic h hr
  unfold run_pipeline
  rw [if_neg h, if_neg hr]
  by_cases hw : writing_gate_rejects (draft_of client topic)
  · rw [if_pos hw]
    simp
  · rw [if_neg hw]
    simp

theorem validation_gate_characterization_witness :
    mkCall Role.Writer (writing_task (research_content_of stubGood "AI")) ∈
      (run_pipeline stubGood "AI").calls :=
  validation_gate_characterization.2.2 stubGood "AI" (by decide) (by decide)

/-- C7: when the completion service returns no content for a stage — a
missing chat result summary (`none`) or an empty summary — the
role-specific placeholder is substituted, the stage's validation gate
rejects it (the placeholder contains itself as a substring), and no later
stage's completion call is made (for the editing stage the run ends in
the editing failure message). -/
theorem empty_completion_rejected (client : ClientFun) (topic : String)
    (h : topic ≠ "") :
    ((client .Researcher (research_task topic) = none ∨
      client .Researcher (research_task topic) = some "") →
      research_content_of client topic = "No research content generated." ∧
      research_gate_rejects (research_content_of client topic) ∧
      (run_pipeline client topic).calls = [mkCall .Researcher (research_task topic)]) ∧
    (¬ research_gate_rejects (research_content_of client topic) →
      (client .Writer (writing_task (research_content_of client topic)) = none ∨
       client .Writer (writing_task (research_content_of client topic)) = some "") →
      draft_of client topic = "No blog post draft generated." ∧
      writing_gate_rejects (draft_of client topic) ∧
      (run_pipeline client topic).calls =
        [mkCall .Researcher (research_task topic),
         mkCall .Writer (writing_task (research_content_of client topic))]) ∧
    (¬ research_gate_rejects (research_content_of client topic) →
      ¬ writing_gate_rejects (draft_of client topic) →
      (client .Editor (editing_task (draft_of client topic)) = none ∨
       client .Editor (editing_task (draft_of client topic)) = some "") →
      final_of client topic = "No final blog post generated." ∧
      ¬ editing_success (final_of client topic)) := by
  refine ⟨?_, ?_, ?_⟩
  · intro hr
    have hco : research_content_of client topic = "No research content generated." := by
      unfold research_content_of
      rcases hr with hr | hr <;> rw [hr] <;> decide
    refine ⟨hco, by rw [hco]; decide, ?_⟩
    have hrej : research_gate_rejects (research_content_of client topic) := by
      rw [hco]; decide
    unfold run_pipeline
    rw [if_neg h, if_pos hrej]
  · intro hrg hw
    have hdo : draft_of client topic = "No blog post draft generated." := by
      unfold draft_of
      rcases hw with hw | hw <;> rw [hw] <;> decide
    refine ⟨hdo, by rw [hdo]; decide, ?_⟩
    have hwrej : writing_gate_rejects (draft_of client topic) := by
      rw [hdo]; decide
    unfold run_pipeline
    rw [if_neg h, if_neg hrg, if_pos hwrej]
  · intro hrg hwg he
    have hfo : final_of client topic = "No final blog post generated." := by
      unfold final_of
      rcases he with he | he <;> rw [he] <;> decide
    exact ⟨hfo, by rw [hfo]; decide⟩

theorem empty_completion_rejected_witness :
    research_content_of stubNone "AI" = "No research content generated." ∧
    research_gate_rejects (research_content_of stubNone "AI") ∧
    (run_pipeline stubNone "AI").calls = [mkCall .Researcher (research_task "AI")] :=
  (empty_completion_rejected stubNone "AI" (by decide)).1 (Or.inl rfl)

/-- C8: every initiate-chat call the pipeline makes — for the research,
writing and editing stages alike — is issued with
`max_consecutive_auto_reply=1`, capping the exchange at one automatic
follow-up turn beyond the initial request. -/
theorem auto_reply_budget_one (client : ClientFun) (topic : String) :
    ∀ c ∈ (run_pipeline client topic).calls, c.max_consecutive_auto_reply = 1 := by
  intro c hc
  unfold run_pipeline at hc
  by_cases h0 : topic = ""
  · rw [if_pos h0] at hc
    simp at hc
  · rw [if_neg h0] at hc
    by_cases h1 : research_gate_rejects (research_content_of client topic)
    · rw [if_pos h1] at hc
      simp only [List.mem_singleton] at hc
      subst hc
      rfl
    · rw [if_neg h1] at hc
      by_cases h2 : writing_gate_rejects (draft_of client topic)
      · rw [if_pos h2] at hc
        rcases List.mem_cons.mp hc with hq | hq
        · subst hq; rfl
        · simp only [List.mem_singleton] at hq
          subst hq; rfl
      · rw [if_neg h2] at hc
        rcases List.mem_cons.mp hc with hq | hq
        · subst hq; rfl
        · rcases List.mem_cons.mp hq with hq2 | hq2
          · subst hq2; rfl
          · simp only [List.mem_singleton] at hq2
            subst hq2; rfl

theorem auto_reply_budget_one_witness :
    mkCall Role.Researcher (research_task "AI") ∈ (run_pipeline stubNone "AI").calls ∧
    (mkCall Role.Researcher (research_task "AI")).max_consecutive_auto_reply = 1 :=
  ⟨by decide, auto_reply_budget_one stubNone "AI" (mkCall Role.Researcher (research_task "AI")) (by decide)⟩

/-- C9: the three role agents share the very same `llm_config`, whose
sampling temperature is the fixed 0.7 and whose seed is the fixed 42 —
identical across the three roles (and constant, hence identical across
runs of the same prompt). -/
theorem llm_config_uniform :
    (∀ r : Role, (agent_of r).llm_config = llm_config) ∧
    llm_config.temperature = 7 / 10 ∧
    llm_config.seed = 42 := by
  refine ⟨?_, rfl, rfl⟩
  intro r
  cases r <;> rfl

/-- C10: with an empty topic, the pipeline makes no completion call at
all and only shows the warning asking for a topic name. -/
theorem empty_topic_no_calls (client : ClientFun) :
    (run_pipeline client "").calls = [] ∧
    (run_pipeline client "").display = [UIEvent.warning "Please enter a topic name."] := by
  constructor <;> rfl
